import Mathlib

/-!
Shallow embedding of `src/components/CompanionComponent.tsx`.

The component is a single-threaded, event-driven UI controller for a voice
session.  All of its mutable state lives in React `useState` hooks; every
event handler and user action is a pure transformation of that state plus an
append-only log of external effects (SDK calls, alerts, history writes).
We embed the state as a structure and each handler as a function
`CState → CState`, translated line by line from the source.  Deferred
actions (`setTimeout`) are modelled with generation ids: arming a timer
allocates a fresh id, a `fire` event carries an id and has an effect only if
that id is still the pending one, which is exactly the `clearTimeout` /
one-shot semantics of the source.  The `setTimeout` callback created inside
`resetVoiceActivityTimeout` is a closure over the `useCallback` render
scope, so the `isListening` / `isSpeaking` values its guard reads are the
ones committed before the arming event's own state updates; the timer
record therefore snapshots those captured values at arm time and the fire
evaluates the guard on the snapshot, not on the live state.
-/

namespace Companion

/-- `enum CallStatus` from the source (lines 11-16). -/
inductive CallStatus where
  | INACTIVE
  | CONNECTING
  | ACTIVE
  | FINISHED
deriving DecidableEq, Repr

/-- `enum VoiceQuality` from the source (lines 18-22). -/
inductive VoiceQuality where
  | LOW
  | MEDIUM
  | HIGH
deriving DecidableEq, Repr

/-- A transcript message saved in the visible list and the context window:
`{ role, content, timestamp }` as built at source lines 166-170. -/
structure SavedMessage where
  role : String
  content : String
  timestamp : String
deriving DecidableEq, Repr

/-- `userPreferences` field of `ConversationContext` (source lines 28-32). -/
structure UserPreferences where
  voiceQuality : VoiceQuality
  noiseReduction : Bool
  echoCancellation : Bool
deriving DecidableEq, Repr

/-- `interface ConversationContext` (source lines 24-33). -/
structure ConversationContext where
  subject : String
  topic : String
  previousMessages : List SavedMessage
  userPreferences : UserPreferences
deriving DecidableEq, Repr

/-- The payload of a `message` SDK event as inspected by `onMessage`
(source lines 158-179): a `type`, a `transcriptType`, a `role` and the
transcript text, all open string fields exactly as in the source. -/
structure VapiMessage where
  type : String
  transcriptType : String
  role : String
  transcript : String
deriving DecidableEq, Repr

/-- A pending `setTimeout` handle: a generation id (fresh per arming), the
delay in milliseconds it was armed with, and the `isListening` /
`isSpeaking` values the callback closure captured when it was created —
the render values committed before the arming event's own updates. -/
structure VATimer where
  id : Nat
  delay : Nat
  capturedListening : Bool
  capturedSpeaking : Bool
deriving DecidableEq, Repr

/-- The component's state: every `useState` hook of the source
(lines 36-55) plus the implicitly shared SDK mute flag and append-only
logs of the externally visible effects (alerts, SDK start/stop calls,
`setMuted` calls, `addToSessionHistory` writes) and of the one-shot
retry delay scheduled by `retryConnection`.  The component props
(`companionId`, `subject`, `topic`) are carried as immutable fields. -/
structure CState where
  callStatus : CallStatus
  isSpeaking : Bool
  isListening : Bool
  isMuted : Bool
  messages : List SavedMessage
  audioLevel : Rat
  connectionQuality : String
  lastUserInput : String
  voiceActivityTimeout : Option VATimer
  retryCount : Nat
  conversationContext : ConversationContext
  -- monotonically increasing source of fresh `setTimeout` ids
  nextTimerId : Nat
  -- the SDK client's own mute flag, read by `vapi.isMuted()`
  sdkMuted : Bool
  -- immutable component props
  companionId : String
  subject : String
  topic : String
  -- effect logs
  alerts : Nat
  historyCalls : List String
  sdkStartCalls : Nat
  sdkStopCalls : Nat
  setMutedCalls : List Bool
  pendingRetry : Option Nat
deriving DecidableEq, Repr

/-- Initial state of a freshly mounted component: the `useState`
initialisers at source lines 36-55. -/
def initState (companionId subject topic : String) : CState :=
  { callStatus := .INACTIVE
    isSpeaking := false
    isListening := false
    isMuted := false
    messages := []
    audioLevel := 0
    connectionQuality := "good"
    lastUserInput := ""
    voiceActivityTimeout := none
    retryCount := 0
    conversationContext :=
      { subject := subject
        topic := topic
        previousMessages := []
        userPreferences :=
          { voiceQuality := .MEDIUM
            noiseReduction := true
            echoCancellation := true } }
    nextTimerId := 0
    sdkMuted := false
    companionId := companionId
    subject := subject
    topic := topic
    alerts := 0
    historyCalls := []
    sdkStartCalls := 0
    sdkStopCalls := 0
    setMutedCalls := []
    pendingRetry := none }

/-- `resetVoiceActivityTimeout` (source lines 68-81): clears any pending
timer and arms a fresh 3000 ms one.  The fresh timer gets a new id, so the
cleared timer's id is dead and a later `fireTimer` with it is a no-op.
The function is a `useCallback` closure, so the callback it hands to
`setTimeout` reads the `isListening` / `isSpeaking` of the render that
created it — its caller passes those captured values in explicitly, and
they are stored with the timer for the fire to consult. -/
def resetVoiceActivityTimeout (capturedListening capturedSpeaking : Bool)
    (s : CState) : CState :=
  { s with
    voiceActivityTimeout :=
      some ⟨s.nextTimerId, 3000, capturedListening, capturedSpeaking⟩
    nextTimerId := s.nextTimerId + 1 }

/-- Delivery of a `setTimeout` callback armed by `resetVoiceActivityTimeout`
(source lines 73-78).  It only runs if the id is still the pending one
(otherwise it was cancelled by `clearTimeout` or superseded); when it runs
it performs `if (isListening && !isSpeaking) setIsListening(false)` where
`isListening` and `isSpeaking` are the closure's captured values from arm
time, not the live state — only the `setIsListening(false)` write touches
the live state.  The one-shot timer is spent either way. -/
def fireTimer (id : Nat) (s : CState) : CState :=
  match s.voiceActivityTimeout with
  | some t =>
      if t.id = id then
        if t.capturedListening && !t.capturedSpeaking then
          { s with isListening := false, voiceActivityTimeout := none }
        else
          { s with voiceActivityTimeout := none }
      else s
  | none => s

/-- `onCallStart` (source lines 139-144). -/
def onCallStart (s : CState) : CState :=
  { s with
    callStatus := .ACTIVE
    retryCount := 0
    connectionQuality := "good" }

/-- `onCallEnd` (source lines 146-156): moves to FINISHED, clears the
speech flags and audio level, cancels the pending silence timer, and calls
`addToSessionHistory(companionId)`. -/
def onCallEnd (s : CState) : CState :=
  { s with
    callStatus := .FINISHED
    isListening := false
    isSpeaking := false
    audioLevel := 0
    voiceActivityTimeout := none
    historyCalls := s.historyCalls ++ [s.companionId] }

/-- `onMessage` (source lines 158-179).  `now` is the value of
`new Date().toISOString()` at handling time.  The partial branch re-arms
the silence timer; the armed callback captures the `isListening` /
`isSpeaking` committed before this event (the handler's own updates have
not re-rendered yet), i.e. the values of `s`. -/
def onMessage (now : String) (m : VapiMessage) (s : CState) : CState :=
  if m.type = "transcript" then
    if m.transcriptType = "partial" then
      resetVoiceActivityTimeout s.isListening s.isSpeaking
        { s with lastUserInput := m.transcript }
    else if m.transcriptType = "final" then
      let newMessage : SavedMessage :=
        { role := m.role, content := m.transcript, timestamp := now }
      { s with
        messages := newMessage :: s.messages
        conversationContext :=
          { s.conversationContext with
            previousMessages :=
              (newMessage :: s.conversationContext.previousMessages).take 10 }
        lastUserInput := "" }
    else s
  else s

/-- `onSpeechStart` (source lines 181-188). -/
def onSpeechStart (s : CState) : CState :=
  { s with
    isSpeaking := true
    isListening := false
    voiceActivityTimeout := none }

/-- `onSpeechEnd` (source lines 190-193). -/
def onSpeechEnd (s : CState) : CState :=
  { s with isSpeaking := false }

/-- `onTranscriptStart` (source lines 195-199): `setIsListening(true)` then
re-arm the silence timer.  The armed callback captures the pre-event
`isListening` / `isSpeaking` (the `setIsListening(true)` has not been
committed to a render yet), so `s.isListening` — not `true` — is what the
eventual fire's guard will read. -/
def onTranscriptStart (s : CState) : CState :=
  resetVoiceActivityTimeout s.isListening s.isSpeaking
    { s with isListening := true }

/-- `onTranscriptEnd` (source lines 201-204). -/
def onTranscriptEnd (s : CState) : CState :=
  { s with isListening := false }

/-- `onVolumeLevel` (source lines 206-208). -/
def onVolumeLevel (volume : Rat) (s : CState) : CState :=
  { s with audioLevel := volume }

/-- `onConnectionQualityChange` (source lines 210-213). -/
def onConnectionQualityChange (quality : String) (s : CState) : CState :=
  { s with connectionQuality := quality }

/-- `toggleMicrophone` (source lines 251-260): reads the SDK's mute flag,
sets the SDK and the local flag to its negation. -/
def toggleMicrophone (s : CState) : CState :=
  let currentMutedState := s.sdkMuted
  { s with
    sdkMuted := !currentMutedState
    isMuted := !currentMutedState
    setMutedCalls := s.setMutedCalls ++ [!currentMutedState] }

/-- `handleCall` (source lines 262-286).  `ok` is whether the awaited
`vapi.start` resolves.  The status is set to CONNECTING before the SDK
call; on rejection the catch block reverts to INACTIVE and alerts.  Note
the catch block does NOT invoke `retryConnection`. -/
def handleCall (ok : Bool) (s : CState) : CState :=
  let s1 := { s with
    callStatus := .CONNECTING
    sdkStartCalls := s.sdkStartCalls + 1 }
  if ok then s1
  else { s1 with callStatus := .INACTIVE, alerts := s1.alerts + 1 }

/-- `handleDisconnect` (source lines 288-296).  `ok` is whether `vapi.stop`
resolves; the catch block only logs, so the state does not depend on it. -/
def handleDisconnect (ok : Bool) (s : CState) : CState :=
  let s1 := { s with
    callStatus := .FINISHED
    sdkStopCalls := s.sdkStopCalls + 1 }
  if ok then s1 else s1

/-- `retryConnection` (source lines 119-136), as the function is written:
if `retryCount < 3` it increments the counter and schedules a one-shot
`handleCall` after `1000 * retryCount` ms (the delay uses the pre-increment
count captured by the closure); otherwise it does nothing.  Within the
source this function is defined but never invoked by any code path. -/
def retryConnection (s : CState) : CState :=
  if s.retryCount < 3 then
    { s with
      retryCount := s.retryCount + 1
      pendingRetry := some (1000 * s.retryCount) }
  else s

/-- The mute button (source lines 436-441): `disabled` unless the status is
ACTIVE, otherwise clicks run `toggleMicrophone`. -/
def muteButtonClick (s : CState) : CState :=
  if s.callStatus = .ACTIVE then toggleMicrophone s else s

/-- The Ctrl+Space branch of `handleKeyPress` (source lines 97-101). -/
def ctrlSpaceKey (s : CState) : CState :=
  if s.callStatus = .ACTIVE then toggleMicrophone s else s

/-- The Escape branch of `handleKeyPress` (source lines 102-105). -/
def escapeKey (ok : Bool) (s : CState) : CState :=
  if s.callStatus = .ACTIVE then handleDisconnect ok s else s

/-- The Ctrl+Enter branch of `handleKeyPress` (source lines 106-111). -/
def ctrlEnterKey (ok : Bool) (s : CState) : CState :=
  if s.callStatus = .INACTIVE then handleCall ok s else s

/-- The clear-transcript button (source lines 484-492): `setMessages([])`. -/
def clearTranscript (s : CState) : CState :=
  { s with messages := [] }

/-- Every event the component reacts to: the nine SDK subscriptions, the
user-facing controls, timer deliveries.  `ok` flags carry the resolution of
the corresponding awaited SDK promise. -/
inductive Ev where
  | callStart
  | callEnd
  | message (now : String) (m : VapiMessage)
  | speechStart
  | speechEnd
  | transcriptStart
  | transcriptEnd
  | volumeLevel (v : Rat)
  | connQuality (q : String)
  | startButton (ok : Bool)
  | endButton (ok : Bool)
  | muteButton
  | ctrlSpace
  | escape (ok : Bool)
  | ctrlEnter (ok : Bool)
  | clearBtn
  | timerFire (id : Nat)
deriving DecidableEq, Repr

/-- One step of the event-driven loop: dispatch to the handler the source
registers for each event.  The start/end button follows the onClick at
source line 459 (ACTIVE → `handleDisconnect`, else `handleCall`) and its
`disabled` attribute at line 460 (no click while CONNECTING). -/
def step (e : Ev) (s : CState) : CState :=
  match e with
  | .callStart => onCallStart s
  | .callEnd => onCallEnd s
  | .message now m => onMessage now m s
  | .speechStart => onSpeechStart s
  | .speechEnd => onSpeechEnd s
  | .transcriptStart => onTranscriptStart s
  | .transcriptEnd => onTranscriptEnd s
  | .volumeLevel v => onVolumeLevel v s
  | .connQuality q => onConnectionQualityChange q s
  | .startButton ok =>
      if s.callStatus = .ACTIVE then handleDisconnect ok s
      else if s.callStatus = .CONNECTING then s
      else handleCall ok s
  | .endButton ok =>
      if s.callStatus = .ACTIVE then handleDisconnect ok s
      else if s.callStatus = .CONNECTING then s
      else handleCall ok s
  | .muteButton => muteButtonClick s
  | .ctrlSpace => ctrlSpaceKey s
  | .escape ok => escapeKey ok s
  | .ctrlEnter ok => ctrlEnterKey ok s
  | .clearBtn => clearTranscript s
  | .timerFire id => fireTimer id s

/-- Run a sequence of events in delivery order. -/
def run (evs : List Ev) (s : CState) : CState :=
  evs.foldl (fun t e => step e t) s

/-- A concrete freshly mounted component, used by witnesses. -/
def init0 : CState := initState "companion-1" "maths" "algebra"

/-- The messages appended by the final-transcript events of a message-event
sequence, in arrival order (each paired with its handling time). -/
def finalsOf (evs : List (String × VapiMessage)) : List SavedMessage :=
  evs.filterMap fun p =>
    if p.2.type = "transcript" ∧ p.2.transcriptType = "final" then
      some { role := p.2.role, content := p.2.transcript, timestamp := p.1 }
    else none

/-- Run a sequence of `message` events only. -/
def runMessages (evs : List (String × VapiMessage)) (s : CState) : CState :=
  evs.foldl (fun t p => onMessage p.1 p.2 t) s

/-- Every pending silence timer was allocated before the current fresh id;
this separates a live timer handle from every already-cleared one. -/
def TimerInv (s : CState) : Prop :=
  ∀ t, s.voiceActivityTimeout = some t → t.id < s.nextTimerId

/-! ### Helper lemmas about single handlers -/

theorem onMessage_messages (now : String) (m : VapiMessage) (s : CState) :
    (onMessage now m s).messages =
      if m.type = "transcript" ∧ m.transcriptType = "final" then
        { role := m.role, content := m.transcript, timestamp := now } :: s.messages
      else s.messages := by
  by_cases h1 : m.type = "transcript"
  · by_cases h2 : m.transcriptType = "partial"
    · have h3 : ¬ m.transcriptType = "final" := by rw [h2]; decide
      simp [onMessage, resetVoiceActivityTimeout, h1, h2, h3]
    · by_cases h3 : m.transcriptType = "final"
      · simp [onMessage, h1, h2, h3]
      · simp [onMessage, h1, h2, h3]
  · simp [onMessage, h1]

theorem onMessage_prev (now : String) (m : VapiMessage) (s : CState) :
    (onMessage now m s).conversationContext.previousMessages =
      if m.type = "transcript" ∧ m.transcriptType = "final" then
        ({ role := m.role, content := m.transcript, timestamp := now } ::
          s.conversationContext.previousMessages).take 10
      else s.conversationContext.previousMessages := by
  by_cases h1 : m.type = "transcript"
  · by_cases h2 : m.transcriptType = "partial"
    · have h3 : ¬ m.transcriptType = "final" := by rw [h2]; decide
      simp [onMessage, resetVoiceActivityTimeout, h1, h2, h3]
    · by_cases h3 : m.transcriptType = "final"
      · simp [onMessage, h1, h2, h3]
      · simp [onMessage, h1, h2, h3]
  · simp [onMessage, h1]

theorem onMessage_fields (now : String) (m : VapiMessage) (s : CState) :
    (onMessage now m s).callStatus = s.callStatus ∧
    (onMessage now m s).retryCount = s.retryCount ∧
    (onMessage now m s).pendingRetry = s.pendingRetry := by
  unfold onMessage resetVoiceActivityTimeout
  split_ifs <;> simp

theorem fireTimer_fields (id : Nat) (s : CState) :
    (fireTimer id s).callStatus = s.callStatus ∧
    (fireTimer id s).retryCount = s.retryCount ∧
    (fireTimer id s).pendingRetry = s.pendingRetry := by
  unfold fireTimer
  rcases s.voiceActivityTimeout with _ | t
  · simp
  · simp only
    split_ifs <;> simp

theorem finalsOf_cons (p : String × VapiMessage) (evs : List (String × VapiMessage)) :
    finalsOf (p :: evs) =
      if p.2.type = "transcript" ∧ p.2.transcriptType = "final" then
        { role := p.2.role, content := p.2.transcript, timestamp := p.1 } :: finalsOf evs
      else finalsOf evs := by
  by_cases h : p.2.type = "transcript" ∧ p.2.transcriptType = "final" <;>
    simp [finalsOf, List.filterMap_cons, h]

theorem runMessages_cons (p : String × VapiMessage) (evs : List (String × VapiMessage))
    (s : CState) :
    runMessages (p :: evs) s = runMessages evs (onMessage p.1 p.2 s) := rfl

theorem runMessages_messages :
    ∀ (evs : List (String × VapiMessage)) (s : CState),
      (runMessages evs s).messages = (finalsOf evs).reverse ++ s.messages := by
  intro evs
  induction evs with
  | nil => intro s; simp [runMessages, finalsOf]
  | cons p rest ih =>
      intro s
      rw [runMessages_cons, ih, finalsOf_cons, onMessage_messages]
      by_cases h : p.2.type = "transcript" ∧ p.2.transcriptType = "final" <;>
        simp [h]

theorem take_append_take {α : Type} (A l : List α) (n : Nat) :
    (A ++ l.take n).take n = (A ++ l).take n := by
  rw [List.take_append_eq_append_take, List.take_append_eq_append_take,
    List.take_take, Nat.min_eq_left (Nat.sub_le _ _)]

theorem runMessages_prev :
    ∀ (evs : List (String × VapiMessage)) (s : CState),
      s.conversationContext.previousMessages.length ≤ 10 →
      (runMessages evs s).conversationContext.previousMessages =
        ((finalsOf evs).reverse ++ s.conversationContext.previousMessages).take 10 := by
  intro evs
  induction evs with
  | nil =>
      intro s hs
      simp [runMessages, finalsOf, List.take_of_length_le hs]
  | cons p rest ih =>
      intro s hs
      rw [runMessages_cons, finalsOf_cons]
      by_cases h : p.2.type = "transcript" ∧ p.2.transcriptType = "final"
      · have hmsg := onMessage_prev p.1 p.2 s
        rw [if_pos h] at hmsg
        have hlen : (onMessage p.1 p.2 s).conversationContext.previousMessages.length ≤ 10 := by
          rw [hmsg]; exact List.length_take_le _ _
        rw [if_pos h, ih _ hlen, hmsg, take_append_take]
        simp [List.append_assoc]
      · have hprev := onMessage_prev p.1 p.2 s
        rw [if_neg h] at hprev
        have hlen : (onMessage p.1 p.2 s).conversationContext.previousMessages.length ≤ 10 := by
          rw [hprev]; exact hs
        rw [ih _ hlen, hprev]
        simp [h]

theorem run_cons (e : Ev) (evs : List Ev) (s : CState) :
    run (e :: evs) s = run evs (step e s) := rfl

theorem step_pending_retry (e : Ev) (s : CState) :
    (step e s).pendingRetry = s.pendingRetry ∧
    ((step e s).retryCount = s.retryCount ∨ (step e s).retryCount = 0) := by
  cases e with
  | callStart => simp [step, onCallStart]
  | callEnd => simp [step, onCallEnd]
  | message now m =>
      have h := onMessage_fields now m s
      exact ⟨h.2.2, Or.inl h.2.1⟩
  | speechStart => simp [step, onSpeechStart]
  | speechEnd => simp [step, onSpeechEnd]
  | transcriptStart => simp [step, onTranscriptStart, resetVoiceActivityTimeout]
  | transcriptEnd => simp [step, onTranscriptEnd]
  | volumeLevel v => simp [step, onVolumeLevel]
  | connQuality q => simp [step, onConnectionQualityChange]
  | startButton ok =>
      simp only [step]
      cases ok <;> split_ifs <;> simp [handleDisconnect, handleCall]
  | endButton ok =>
      simp only [step]
      cases ok <;> split_ifs <;> simp [handleDisconnect, handleCall]
  | muteButton =>
      simp only [step, muteButtonClick]
      split_ifs <;> simp [toggleMicrophone]
  | ctrlSpace =>
      simp only [step, ctrlSpaceKey]
      split_ifs <;> simp [toggleMicrophone]
  | escape ok =>
      simp only [step, escapeKey]
      cases ok <;> split_ifs <;> simp [handleDisconnect]
  | ctrlEnter ok =>
      simp only [step, ctrlEnterKey]
      cases ok <;> split_ifs <;> simp [handleCall]
  | clearBtn => simp [step, clearTranscript]
  | timerFire id =>
      have h := fireTimer_fields id s
      exact ⟨h.2.2, Or.inl h.2.1⟩

theorem run_no_retry :
    ∀ (evs : List Ev) (s : CState), s.retryCount = 0 → s.pendingRetry = none →
      (run evs s).retryCount = 0 ∧ (run evs s).pendingRetry = none := by
  intro evs
  induction evs with
  | nil => intro s h1 h2; exact ⟨h1, h2⟩
  | cons e rest ih =>
      intro s h1 h2
      have hp := step_pending_retry e s
      have hr : (step e s).retryCount = 0 := by
        rcases hp.2 with h | h
        · rw [h, h1]
        · exact h
      have hpr : (step e s).pendingRetry = none := by rw [hp.1, h2]
      rw [run_cons]
      exact ih _ hr hpr

theorem step_timer_cases (e : Ev) (s : CState) :
    ((step e s).voiceActivityTimeout = s.voiceActivityTimeout ∧
      (step e s).nextTimerId = s.nextTimerId) ∨
    (step e s).voiceActivityTimeout = none ∨
    ((∀ t, (step e s).voiceActivityTimeout = some t → t.id = s.nextTimerId) ∧
      (step e s).nextTimerId = s.nextTimerId + 1) := by
  cases e with
  | callStart => left; simp [step, onCallStart]
  | callEnd => right; left; simp [step, onCallEnd]
  | message now m =>
      by_cases h1 : m.type = "transcript"
      · by_cases h2 : m.transcriptType = "partial"
        · right; right
          constructor
          · intro t ht
            simp only [step, onMessage, h1, h2, if_true, if_pos,
              resetVoiceActivityTimeout, Option.some.injEq] at ht
            rw [← ht]
          · simp [step, onMessage, h1, h2, resetVoiceActivityTimeout]
        · left
          by_cases h3 : m.transcriptType = "final" <;>
            simp [step, onMessage, h1, h2, h3]
      · left; simp [step, onMessage, h1]
  | speechStart => right; left; simp [step, onSpeechStart]
  | speechEnd => left; simp [step, onSpeechEnd]
  | transcriptStart =>
      right; right
      constructor
      · intro t ht
        simp only [step, onTranscriptStart, resetVoiceActivityTimeout,
          Option.some.injEq] at ht
        rw [← ht]
      · simp [step, onTranscriptStart, resetVoiceActivityTimeout]
  | transcriptEnd => left; simp [step, onTranscriptEnd]
  | volumeLevel v => left; simp [step, onVolumeLevel]
  | connQuality q => left; simp [step, onConnectionQualityChange]
  | startButton ok =>
      left
      simp only [step]
      cases ok <;> split_ifs <;> simp [handleDisconnect, handleCall]
  | endButton ok =>
      left
      simp only [step]
      cases ok <;> split_ifs <;> simp [handleDisconnect, handleCall]
  | muteButton =>
      left
      simp only [step, muteButtonClick]
      split_ifs <;> simp [toggleMicrophone]
  | ctrlSpace =>
      left
      simp only [step, ctrlSpaceKey]
      split_ifs <;> simp [toggleMicrophone]
  | escape ok =>
      left
      simp only [step, escapeKey]
      cases ok <;> split_ifs <;> simp [handleDisconnect]
  | ctrlEnter ok =>
      left
      simp only [step, ctrlEnterKey]
      cases ok <;> split_ifs <;> simp [handleCall]
  | clearBtn => left; simp [step, clearTranscript]
  | timerFire id =>
      rcases h : s.voiceActivityTimeout with _ | t
      · left; simp [step, fireTimer, h]
      · simp only [step, fireTimer, h]
        by_cases hid : t.id = id
        · right; left
          simp only [hid, if_pos rfl]
          split_ifs <;> rfl
        · left; simp [hid, h]

theorem timerInv_step (e : Ev) (s : CState) (h : TimerInv s) :
    TimerInv (step e s) := by
  rcases step_timer_cases e s with ⟨h1, h2⟩ | h1 | ⟨h1, h2⟩
  · intro t ht
    rw [h1] at ht
    rw [h2]
    exact h t ht
  · intro t ht
    rw [h1] at ht
    cases ht
  · intro t ht
    rw [h2, h1 t ht]
    exact Nat.lt_succ_self _

theorem timerInv_run (evs : List Ev) : TimerInv (run evs init0) := by
  have key : ∀ (l : List Ev) (s : CState), TimerInv s → TimerInv (run l s) := by
    intro l
    induction l with
    | nil => intro s hs; exact hs
    | cons e rest ih =>
        intro s hs
        rw [run_cons]
        exact ih _ (timerInv_step e s hs)
  refine key evs init0 ?_
  intro t ht
  simp [init0, initState] at ht

theorem fireTimer_spent (id : Nat) (s : CState) :
    fireTimer id (fireTimer id s) = fireTimer id s := by
  rcases h : s.voiceActivityTimeout with _ | t
  · simp [fireTimer, h]
  · simp only [fireTimer, h]
    by_cases hid : t.id = id
    · simp only [hid, if_pos rfl]
      split_ifs <;> rfl
    · simp [hid, h]

theorem fire_stale (a b : Bool) (s : CState) (h : TimerInv s) (t : VATimer)
    (ht : s.voiceActivityTimeout = some t) :
    fireTimer t.id (resetVoiceActivityTimeout a b s) =
      resetVoiceActivityTimeout a b s := by
  have hlt : t.id < s.nextTimerId := h t ht
  have hne : ¬ s.nextTimerId = t.id := by omega
  simp [fireTimer, resetVoiceActivityTimeout, hne]

theorem fire_captured_silences (s : CState) (t : VATimer)
    (ht : s.voiceActivityTimeout = some t)
    (hl : t.capturedListening = true) (hs : t.capturedSpeaking = false) :
    (fireTimer t.id s).isListening = false := by
  simp [fireTimer, ht, hl, hs]

theorem fire_captured_noop (s : CState) (t : VATimer)
    (ht : s.voiceActivityTimeout = some t)
    (hg : (t.capturedListening && !t.capturedSpeaking) = false) :
    (fireTimer t.id s).isListening = s.isListening := by
  simp [fireTimer, ht, hg]

theorem transcriptStart_fire_keeps_listening (s : CState)
    (h : s.isListening = false) :
    (fireTimer s.nextTimerId (onTranscriptStart s)).isListening = true := by
  simp [fireTimer, onTranscriptStart, resetVoiceActivityTimeout, h]

theorem onTranscriptStart_arms (s : CState) :
    (onTranscriptStart s).voiceActivityTimeout =
      some ⟨s.nextTimerId, 3000, s.isListening, s.isSpeaking⟩ := rfl

theorem partial_arms (now : String) (m : VapiMessage) (s : CState)
    (h1 : m.type = "transcript") (h2 : m.transcriptType = "partial") :
    (onMessage now m s).voiceActivityTimeout =
      some ⟨s.nextTimerId, 3000, s.isListening, s.isSpeaking⟩ := by
  simp [onMessage, h1, h2, resetVoiceActivityTimeout]

/-! ### Claim theorems -/

/-- C1, counterexample: a connection-start failure does NOT increment the
retry counter and does NOT schedule a delayed re-invocation of start().
From the initial state, with the retry count 0 (< 3), the failing
`handleCall` leaves the counter at 0, schedules nothing, and goes straight
to INACTIVE — `retryConnection` is never invoked by the failure path. -/
theorem start_failure_no_retry_cx :
    init0.retryCount < 3 ∧
    (handleCall false init0).callStatus = CallStatus.INACTIVE ∧
    (handleCall false init0).retryCount = init0.retryCount ∧
    (handleCall false init0).pendingRetry = none := by
  decide

/-- C1, amended claim: on a connection-start failure the component alerts
the user and forces the phase to Inactive without retrying — the retry
counter and the scheduled-retry slot are untouched, and along every event
sequence from a fresh mount the retry counter stays 0 and no retry is ever
pending (the `retryConnection` helper is defined but never invoked).  Had
`retryConnection` been invoked with count < 3 it would increment the
counter and schedule start() after `1000 * count` ms (the pre-increment
count), and with count ≥ 3 it does nothing. -/
theorem start_failure_alerts_and_stays_unretried (s : CState) :
    (handleCall false s).callStatus = CallStatus.INACTIVE ∧
    (handleCall false s).alerts = s.alerts + 1 ∧
    (handleCall false s).retryCount = s.retryCount ∧
    (handleCall false s).pendingRetry = s.pendingRetry ∧
    (∀ evs : List Ev, (run evs init0).retryCount = 0 ∧
      (run evs init0).pendingRetry = none) ∧
    (s.retryCount < 3 →
      (retryConnection s).retryCount = s.retryCount + 1 ∧
      (retryConnection s).pendingRetry = some (1000 * s.retryCount)) ∧
    (3 ≤ s.retryCount → retryConnection s = s) := by
  refine ⟨by simp [handleCall], by simp [handleCall], by simp [handleCall],
    by simp [handleCall], fun evs => run_no_retry evs init0 rfl rfl, ?_, ?_⟩
  · intro h
    simp [retryConnection, h]
  · intro h
    simp [retryConnection, Nat.not_lt.mpr h]

/-- C1, witness for the amended claim at a concrete state. -/
theorem start_failure_alerts_and_stays_unretried_witness :
    (retryConnection init0).retryCount = init0.retryCount + 1 ∧
    (retryConnection init0).pendingRetry = some (1000 * init0.retryCount) :=
  (start_failure_alerts_and_stays_unretried init0).2.2.2.2.2.1 (by decide)

/-- C2: each final transcript event appends exactly one new Message to the
front of the message list and clears the in-flight utterance, partial
transcript events never append, and after any sequence of message events
from a fresh mount the message list is exactly the final events, newest
first, so its length is the number of finals received. -/
theorem final_transcripts_build_message_list :
    (∀ evs : List (String × VapiMessage),
      (runMessages evs init0).messages = (finalsOf evs).reverse ∧
      (runMessages evs init0).messages.length = (finalsOf evs).length) ∧
    (∀ (now : String) (m : VapiMessage) (s : CState),
      m.type = "transcript" → m.transcriptType = "final" →
      (onMessage now m s).messages =
        { role := m.role, content := m.transcript, timestamp := now } :: s.messages ∧
      (onMessage now m s).lastUserInput = "") ∧
    (∀ (now : String) (m : VapiMessage) (s : CState),
      m.transcriptType = "partial" → (onMessage now m s).messages = s.messages) := by
  refine ⟨?_, ?_, ?_⟩
  · intro evs
    have h := runMessages_messages evs init0
    have h0 : init0.messages = [] := rfl
    rw [h0, List.append_nil] at h
    exact ⟨h, by rw [h]; simp⟩
  · intro now m s h1 h2
    have h3 : ¬ m.transcriptType = "partial" := by rw [h2]; decide
    refine ⟨?_, ?_⟩
    · rw [onMessage_messages]
      simp [h1, h2]
    · simp [onMessage, h1, h2, h3]
  · intro now m s h2
    rw [onMessage_messages]
    have hno : ¬ (m.type = "transcript" ∧ m.transcriptType = "final") := by
      rintro ⟨-, hf⟩
      exact absurd (h2.symm.trans hf) (by decide)
    simp [hno]

/-- C2, witness: one final transcript event from a fresh mount yields the
singleton message list and an empty in-flight utterance. -/
theorem final_transcripts_build_message_list_witness :
    (onMessage "2024-01-01T00:00:00Z" ⟨"transcript", "final", "user", "hello"⟩
        init0).messages =
      [{ role := "user", content := "hello", timestamp := "2024-01-01T00:00:00Z" }] ∧
    (onMessage "2024-01-01T00:00:00Z" ⟨"transcript", "final", "user", "hello"⟩
        init0).lastUserInput = "" := by
  have h := final_transcripts_build_message_list.2.1 "2024-01-01T00:00:00Z"
    ⟨"transcript", "final", "user", "hello"⟩ init0 rfl rfl
  exact ⟨h.1, h.2⟩

/-- C3: after any sequence of message events from a fresh mount the bounded
conversation-context window `previousMessages` has at most 10 entries and
holds the most recent final messages newest-first. -/
theorem context_window_bounded_by_ten (evs : List (String × VapiMessage)) :
    (runMessages evs init0).conversationContext.previousMessages.length ≤ 10 ∧
    (runMessages evs init0).conversationContext.previousMessages =
      ((finalsOf evs).reverse).take 10 := by
  have h0 : init0.conversationContext.previousMessages = [] := rfl
  have h := runMessages_prev evs init0 (by rw [h0]; simp)
  rw [h0, List.append_nil] at h
  exact ⟨by rw [h]; exact List.length_take_le _ _, h⟩

/-- C4: starting a session from Inactive or Finished immediately moves the
phase to Connecting; among the SDK event handlers only call-start and
call-end change the phase (to Active resp. Finished), all others preserve
it; and when the SDK start call rejects the component alerts and reverts
the phase to Inactive. -/
theorem start_session_connects_first (s : CState)
    (_h : s.callStatus = CallStatus.INACTIVE ∨ s.callStatus = CallStatus.FINISHED) :
    (handleCall true s).callStatus = CallStatus.CONNECTING ∧
    (∀ t : CState, (onCallStart t).callStatus = CallStatus.ACTIVE ∧
      (onCallEnd t).callStatus = CallStatus.FINISHED) ∧
    (∀ (t : CState) (now : String) (m : VapiMessage) (v : Rat) (q : String)
        (id : Nat),
      (onMessage now m t).callStatus = t.callStatus ∧
      (onSpeechStart t).callStatus = t.callStatus ∧
      (onSpeechEnd t).callStatus = t.callStatus ∧
      (onTranscriptStart t).callStatus = t.callStatus ∧
      (onTranscriptEnd t).callStatus = t.callStatus ∧
      (onVolumeLevel v t).callStatus = t.callStatus ∧
      (onConnectionQualityChange q t).callStatus = t.callStatus ∧
      (fireTimer id t).callStatus = t.callStatus) ∧
    ((handleCall false s).callStatus = CallStatus.INACTIVE ∧
      (handleCall false s).alerts = s.alerts + 1) := by
  refine ⟨by simp [handleCall], fun t => ⟨rfl, rfl⟩, ?_,
    by simp [handleCall], by simp [handleCall]⟩
  intro t now m v q id
  exact ⟨(onMessage_fields now m t).1, rfl, rfl, rfl, rfl, rfl, rfl,
    (fireTimer_fields id t).1⟩

/-- C4, witness at the fresh mount (which is INACTIVE). -/
theorem start_session_connects_first_witness :
    (handleCall true init0).callStatus = CallStatus.CONNECTING :=
  (start_session_connects_first init0 (Or.inl rfl)).1

/-- C5, counterexample: the silence timer can fire without having been
re-armed or cancelled and yet leave listening = true, even with the
assistant silent.  From a fresh mount, transcript-start sets listening to
true and arms the timer, but the armed callback captured the pre-event
`isListening = false` (the `useCallback` closure's render value), so when
the pending timer (id 0) fires and is spent, the guard
`capturedListening && !capturedSpeaking` is false and listening stays
true — contrary to the claim that an uncancelled fire forces
listening = false. -/
theorem timer_fire_stale_capture_cx :
    (onTranscriptStart init0).voiceActivityTimeout =
      some ⟨0, 3000, false, false⟩ ∧
    (onTranscriptStart init0).isListening = true ∧
    (onTranscriptStart init0).isSpeaking = false ∧
    (fireTimer 0 (onTranscriptStart init0)).voiceActivityTimeout = none ∧
    (fireTimer 0 (onTranscriptStart init0)).isListening = true := by
  decide

/-- C5, amended claim: the silence timer is armed for 3000 ms whenever user
speech capture starts or a partial transcript arrives, the armed callback
capturing the isListening/isSpeaking values committed before the arming
event's own updates; arming replaces any pending timer and the replaced
timer can no longer fire (its id is stale), so at most one timer is
pending — along every event sequence from a fresh mount every pending
timer id is fresh — and a fired timer is spent (a second delivery of the
same id is a no-op).  A fire forces listening = false exactly when the
captured values had isListening and not isSpeaking, and leaves the flag
unchanged otherwise; in particular the timer armed by transcript-start
from a non-listening state captured isListening = false, so its fire never
clears the flag. -/
theorem silence_timer_arm_and_fire (s : CState) :
    (onTranscriptStart s).voiceActivityTimeout =
      some ⟨s.nextTimerId, 3000, s.isListening, s.isSpeaking⟩ ∧
    (∀ (now : String) (m : VapiMessage),
      m.type = "transcript" → m.transcriptType = "partial" →
      (onMessage now m s).voiceActivityTimeout =
        some ⟨s.nextTimerId, 3000, s.isListening, s.isSpeaking⟩) ∧
    (TimerInv s → ∀ (a b : Bool) (t : VATimer),
      s.voiceActivityTimeout = some t →
      fireTimer t.id (resetVoiceActivityTimeout a b s) =
        resetVoiceActivityTimeout a b s) ∧
    (∀ evs : List Ev, TimerInv (run evs init0)) ∧
    (∀ id, fireTimer id (fireTimer id s) = fireTimer id s) ∧
    (∀ t : VATimer, s.voiceActivityTimeout = some t →
      t.capturedListening = true → t.capturedSpeaking = false →
      (fireTimer t.id s).isListening = false) ∧
    (∀ t : VATimer, s.voiceActivityTimeout = some t →
      (t.capturedListening && !t.capturedSpeaking) = false →
      (fireTimer t.id s).isListening = s.isListening) ∧
    (s.isListening = false →
      (fireTimer s.nextTimerId (onTranscriptStart s)).isListening = true) :=
  ⟨onTranscriptStart_arms s, fun now m h1 h2 => partial_arms now m s h1 h2,
    fun hInv a b t ht => fire_stale a b s hInv t ht, timerInv_run,
    fun id => fireTimer_spent id s,
    fun t ht hl hs => fire_captured_silences s t ht hl hs,
    fun t ht hg => fire_captured_noop s t ht hg,
    fun h => transcriptStart_fire_keeps_listening s h⟩

/-- C5, witness: after transcript-start and then a partial transcript from
a fresh mount, the pending timer captured isListening = true with the
assistant silent, so its fire clears the flag; the timer armed by the
transcript-start itself captured isListening = false and its fire leaves
listening = true. -/
theorem silence_timer_arm_and_fire_witness :
    (fireTimer 1 (onMessage "2024-01-01T00:00:01Z"
        ⟨"transcript", "partial", "user", "hel"⟩
        (onTranscriptStart init0))).isListening = false ∧
    (fireTimer 0 (onTranscriptStart init0)).isListening = true := by
  constructor
  · exact (silence_timer_arm_and_fire (onMessage "2024-01-01T00:00:01Z"
      ⟨"transcript", "partial", "user", "hel"⟩
      (onTranscriptStart init0))).2.2.2.2.2.1
      ⟨1, 3000, true, false⟩ (by decide) (by decide) (by decide)
  · exact (silence_timer_arm_and_fire init0).2.2.2.2.2.2.2 rfl

/-- C6: the call-end event moves the phase from any state to Finished and
records the session exactly once in the external history store, keyed by
the companion identity. -/
theorem call_end_finishes_and_records (s : CState) :
    (onCallEnd s).callStatus = CallStatus.FINISHED ∧
    (onCallEnd s).historyCalls = s.historyCalls ++ [s.companionId] :=
  ⟨rfl, rfl⟩

/-- C7: the call-start event moves the phase from Connecting to Active,
resets the retry counter to 0 and the connection quality to "good"; the
retry counter is 0 after every call-start, whatever the prior state. -/
theorem call_start_activates_and_resets (s : CState)
    (_h : s.callStatus = CallStatus.CONNECTING) :
    (onCallStart s).callStatus = CallStatus.ACTIVE ∧
    (onCallStart s).retryCount = 0 ∧
    (onCallStart s).connectionQuality = "good" ∧
    (∀ t : CState, (onCallStart t).retryCount = 0) :=
  ⟨rfl, rfl, rfl, fun _ => rfl⟩

/-- C7, witness at the connecting state reached by a successful start. -/
theorem call_start_activates_and_resets_witness :
    (onCallStart (handleCall true init0)).callStatus = CallStatus.ACTIVE :=
  (call_start_activates_and_resets (handleCall true init0) (by decide)).1

/-- C8: disconnect moves the phase from Active to Finished and invokes the
SDK stop call; a stop failure is only logged, the transition still holds,
and the resulting state is identical to the success case. -/
theorem disconnect_finishes_even_on_failure (s : CState)
    (_h : s.callStatus = CallStatus.ACTIVE) :
    (∀ b : Bool, (handleDisconnect b s).callStatus = CallStatus.FINISHED ∧
      (handleDisconnect b s).sdkStopCalls = s.sdkStopCalls + 1) ∧
    handleDisconnect false s = handleDisconnect true s := by
  refine ⟨fun b => ?_, rfl⟩
  cases b <;> exact ⟨rfl, rfl⟩

/-- C8, witness at an active session. -/
theorem disconnect_finishes_even_on_failure_witness :
    (handleDisconnect false (onCallStart init0)).callStatus =
      CallStatus.FINISHED :=
  ((disconnect_finishes_even_on_failure (onCallStart init0) rfl).1 false).1

/-- C9: when the phase is not Active, toggling the mute control — the
disabled button or the guarded Ctrl+Space shortcut — is a no-op: the whole
state is unchanged, so in particular the mute flag and the log of SDK
setMuted calls are unchanged. -/
theorem mute_toggle_noop_when_not_active (s : CState)
    (h : s.callStatus ≠ CallStatus.ACTIVE) :
    muteButtonClick s = s ∧ ctrlSpaceKey s = s ∧
    (muteButtonClick s).isMuted = s.isMuted ∧
    (muteButtonClick s).setMutedCalls = s.setMutedCalls := by
  have h1 : muteButtonClick s = s := by simp [muteButtonClick, h]
  have h2 : ctrlSpaceKey s = s := by simp [ctrlSpaceKey, h]
  exact ⟨h1, h2, by rw [h1], by rw [h1]⟩

/-- C9, witness at the fresh (inactive) mount. -/
theorem mute_toggle_noop_when_not_active_witness :
    muteButtonClick init0 = init0 :=
  (mute_toggle_noop_when_not_active init0 (by decide)).1

/-- C10: the clear-transcript button empties only the visible message
list; the bounded context window, the in-flight utterance, the call phase,
the mute flag and the user preferences are all unchanged. -/
theorem clear_transcript_only_clears_messages (s : CState) :
    (clearTranscript s).messages = [] ∧
    (clearTranscript s).conversationContext.previousMessages =
      s.conversationContext.previousMessages ∧
    (clearTranscript s).lastUserInput = s.lastUserInput ∧
    (clearTranscript s).callStatus = s.callStatus ∧
    (clearTranscript s).isMuted = s.isMuted ∧
    (clearTranscript s).conversationContext.userPreferences =
      s.conversationContext.userPreferences :=
  ⟨rfl, rfl, rfl, rfl, rfl, rfl⟩

end Companion
